import Mathlib

/-!
Shallow embedding of the GB Guide backend authentication and authorization
core (app/core/security.py, app/api/routes/auth.py, app/api/routes/hotels.py,
app/config.py, app/models.py, app/schemas/user.py).

Conventions:
* Python `HTTPException` values are carried in an `Except` monad; an
  exception the framework would translate into an HTTP status is
  `Fault.http`, while an uncaught Python exception (ValueError,
  AttributeError, passlib errors) is carried by the other `Fault`
  constructors — those surface as 500-class faults, not designed statuses.
* The async database session is modelled by an explicit `DB` value;
  handlers that write return the updated `DB`, handlers that only read
  return it unchanged.
* Wall-clock time is an explicit `now : Nat` parameter (seconds).
* bcrypt salting is nondeterministic in the source; the salt is passed as
  an explicit `seed : Nat` parameter.
-/

-- ═══════════════════════════════ models.py ═══════════════════════════════

/-- `UserRole` enum from app/models.py. -/
inductive UserRole where
  | customer
  | admin
  | hotel_owner
  | car_rental
  | guide
deriving DecidableEq, Repr

/-- The `.value` string of each `UserRole` member (Python `str`-enum). -/
def UserRole.value : UserRole → String
  | .customer => "customer"
  | .admin => "admin"
  | .hotel_owner => "hotel_owner"
  | .car_rental => "car_rental"
  | .guide => "guide"

/-- `User` table row from app/models.py (relationship fields omitted:
they are derived views, not stored columns). -/
structure User where
  id : Int
  email : String
  password_hash : String
  full_name : String
  city : Option String
  phone_number : Option String
  role : UserRole
  created_at : Nat
deriving DecidableEq, Repr

/-- `Hotel` table row from app/models.py. -/
structure Hotel where
  id : Int
  owner_id : Int
  name : String
  location : String
  city : String
  description : Option String
  images : Option (List String)
  created_at : Nat
deriving DecidableEq, Repr

/-- `Room` table row from app/models.py. `price_per_night` is a Python
float used only as an opaque carried value (no arithmetic in this core);
it is modelled as `Int`. -/
structure Room where
  id : Int
  hotel_id : Int
  room_type : String
  price_per_night : Int
  capacity : Int
  is_available : Bool
deriving DecidableEq, Repr

-- ═══════════════════════ HTTP / fault plumbing ═══════════════════════

/-- FastAPI `HTTPException` (status code, detail message, extra headers). -/
structure HTTPException where
  status_code : Nat
  detail : String
  headers : List (String × String)
deriving DecidableEq, Repr

/-- How a handler terminates abnormally: a raised `HTTPException`
(translated by the framework into its status code), or an uncaught Python
exception (`ValueError` from `int(...)`, `AttributeError` from a missing
settings attribute, a passlib error from `CryptContext.verify`) which the
framework surfaces as an internal server error, not a designed status. -/
inductive Fault where
  | http (e : HTTPException)
  | valueError (arg : String)
  | attributeError (name : String)
  | passlibError (kind : String)
deriving DecidableEq, Repr

-- ═══════════════════════ database session model ═══════════════════════

/-- The persistent store: the tables this core touches, plus the next
auto-increment primary keys. -/
structure DB where
  users : List User
  hotels : List Hotel
  rooms : List Room
  nextUserId : Int
  nextRoomId : Int
deriving DecidableEq, Repr

/-- `select(User).where(User.email == e)` + `scalar_one_or_none()`
(emails are unique at the store, so first match is the row). -/
def findUserByEmail (db : DB) (email : String) : Option User :=
  db.users.find? (fun u => u.email == email)

/-- `session.get(User, id)` — primary-key lookup. -/
def findUserById (db : DB) (id : Int) : Option User :=
  db.users.find? (fun u => u.id == id)

/-- `session.get(Hotel, hotel_id)` — primary-key lookup. -/
def getHotel (db : DB) (hotel_id : Int) : Option Hotel :=
  db.hotels.find? (fun h => h.id == hotel_id)

-- ═══════════════ passlib CryptContext(schemes=[bcrypt]) model ═══════════════

/-- The bcrypt base-64 alphabet. -/
def bcrypt64 : List Char :=
  "./ABCDEFGHIJKLMNOPQRSTUVWXYZabcdefghijklmnopqrstuvwxyz0123456789".data

/-- One alphabet character selected by an index (total function). -/
def b64char (n : Nat) : Char :=
  bcrypt64.getD (n % 64) (Char.ofNat 46)

/-- A fixed-length string over the bcrypt alphabet driven by a seed. -/
def b64str (len seed : Nat) : String :=
  String.mk ((List.range len).map (fun i => b64char (seed + 37 * i)))

/-- A deterministic mixing function standing in for the EksBlowfish core
of bcrypt: the checksum model below only needs to be a pure total
function of password and salt. -/
def strSeed (s : String) : Nat :=
  s.data.foldl (fun a c => a * 131 + c.toNat) 7

/-- The 22-character salt segment derived from the salt seed. -/
def saltStr (seed : Nat) : String :=
  b64str 22 seed

/-- The 31-character bcrypt checksum segment (model). -/
def chk31 (plain salt : String) : String :=
  b64str 31 (strSeed (plain ++ salt))

/-- `hash_password` from app/core/security.py: `pwd_context.hash` with the
bcrypt scheme produces a `$2b$` digest with cost 12, a fresh 22-character
salt and a 31-character checksum; the fresh salt is the explicit `seed`. -/
def hash_password (seed : Nat) (plain : String) : String :=
  "$2b$12$" ++ saltStr seed ++ chk31 plain (saltStr seed)

/-- passlib hash identification for the bcrypt scheme: the digest must
start with one of the bcrypt ident prefixes. (The rarely used original
ident `$2$` is folded into the first arm.) -/
def bcryptIdentify (h : String) : Bool :=
  match h.data with
  | '$' :: '2' :: '$' :: _ => true
  | '$' :: '2' :: i :: '$' :: _ => i = 'a' || i = 'b' || i = 'x' || i = 'y'
  | _ => false

/-- Structural well-formedness of a modern bcrypt digest:
`$2<ident>$<2-digit cost>$<22-char salt><31-char checksum>`. -/
def isBcryptWellFormed (h : String) : Bool :=
  match h.data with
  | '$' :: '2' :: i :: '$' :: r1 :: r2 :: '$' :: rest =>
      (i = 'a' || i = 'b' || i = 'x' || i = 'y') && r1.isDigit && r2.isDigit
        && rest.length == 53 && rest.all (fun c => bcrypt64.contains c)
  | _ => false

/-- Recompute-and-compare on a well-formed digest: extract the embedded
salt, recompute the checksum from the candidate plaintext, compare. -/
def bcryptVerifyWF (plain hashed : String) : Bool :=
  ((hashed.drop 7).take 22 |> fun salt => (hashed.drop 29) == chk31 plain salt)

/-- Outcome of a passlib verification call: an ordinary boolean return,
or a raised passlib exception. -/
inductive VerifyOutcome where
  | returns (b : Bool)
  | raises (kind : String)
deriving DecidableEq, Repr

/-- `CryptContext.verify` with `schemes=["bcrypt"]`: a hash no scheme
identifies raises `UnknownHashError`; an identified but structurally
invalid bcrypt hash raises `MalformedHashError`; only a well-formed hash
is actually verified and yields a boolean. -/
def cryptContextVerify (plain hashed : String) : VerifyOutcome :=
  if bcryptIdentify hashed = false then .raises "UnknownHashError"
  else if isBcryptWellFormed hashed = false then .raises "MalformedHashError"
  else .returns (bcryptVerifyWF plain hashed)

/-- `verify_password` from app/core/security.py: a bare delegation to
`pwd_context.verify` — no exception handling is added. -/
def verify_password (plain_password hashed_password : String) : VerifyOutcome :=
  cryptContextVerify plain_password hashed_password

-- ═══════════════════════════ JWT (python-jose) model ═══════════════════════════

/-- The JWT payload claims this application reads and writes:
`sub` (subject, a string) and `exp` (expiry instant, seconds). -/
structure Payload where
  sub : Option String
  exp : Option Nat
deriving DecidableEq, Repr

/-- A serialized bearer token: either a correctly serialized JWS whose
signature commits to its payload, key and algorithm, or any other byte
string (malformed / tampered — signature cannot be recovered). -/
inductive TokenString where
  | signed (payload : Payload) (key : String) (alg : String)
  | malformed (raw : String)
deriving DecidableEq, Repr

/-- `jose.JWTError` classes raised by `jwt.decode`. -/
inductive JwtError where
  | invalidToken
  | expiredSignature
deriving DecidableEq, Repr

/-- The three JWT configuration values the security module reads from the
settings object (the spec §6 configuration knob: signing secret +
algorithm + TTL). `app/config.py` fails to declare these fields — that
defect is modelled separately by `settingsFieldNames` below; the
functions parameterised over `JwtConfig` express the security-module
logic given the configuration it reads. -/
structure JwtConfig where
  jwt_secret_key : String
  jwt_algorithm : String
  jwt_access_token_expire_minutes : Nat
deriving DecidableEq, Repr

/-- Token lifetime in seconds: the explicit `expires_delta` when one is
passed, else `timedelta(minutes=settings.JWT_ACCESS_TOKEN_EXPIRE_MINUTES)`. -/
def tokenLifetime (cfg : JwtConfig) (expires_delta : Option Nat) : Nat :=
  match expires_delta with
  | some d => d
  | none => cfg.jwt_access_token_expire_minutes * 60

/-- `create_access_token` from app/core/security.py, with the settings
values it reads supplied as `cfg`: copy the payload, overwrite `exp` with
now + lifetime, sign with the configured key and algorithm. -/
def create_access_token (cfg : JwtConfig) (now : Nat) (data : Payload)
    (expires_delta : Option Nat) : TokenString :=
  TokenString.signed { data with exp := some (now + tokenLifetime cfg expires_delta) }
    cfg.jwt_secret_key cfg.jwt_algorithm

/-- `jose.jwt.decode(token, key, algorithms=...)` at time `now`:
malformed input, an algorithm outside the accepted list, or a signature
made with a different key raise a `JWTError`; a past `exp` raises
`ExpiredSignatureError` (a `JWTError` subclass); otherwise the claims are
returned. -/
def jwtDecode (key : String) (algorithms : List String) (now : Nat) :
    TokenString → Except JwtError Payload
  | .malformed _ => .error .invalidToken
  | .signed payload tokKey tokAlg =>
      if tokAlg ∉ algorithms then .error .invalidToken
      else if tokKey ≠ key then .error .invalidToken
      else
        match payload.exp with
        | some e => if e < now then .error .expiredSignature else .ok payload
        | none => .ok payload

-- ═══════════════════════════ config.py model ═══════════════════════════

/-- The attribute names the `Settings` object of app/config.py actually
exposes: its declared fields and its three `@property` methods. The model
config `extra="ignore"` discards any undeclared keys from the
environment, so nothing else becomes an attribute. -/
def settingsFieldNames : List String :=
  ["POSTGRES_USER", "POSTGRES_PASSWORD", "POSTGRES_DB", "POSTGRES_HOST",
   "POSTGRES_PORT", "database_url", "sync_database_url", "CORS_ORIGINS",
   "cors_origin_list", "APP_NAME", "DEBUG"]

/-- Python attribute access `getattr(settings, name)`: an undeclared name
raises `AttributeError`. The attribute values themselves are irrelevant to
the claims; only presence matters. -/
def settingsGetattr (name : String) : Except Fault Unit :=
  if settingsFieldNames.contains name then .ok () else .error (.attributeError name)

/-- `create_access_token` as it actually executes against the `settings`
singleton of app/config.py: the default branch evaluates
`settings.JWT_ACCESS_TOKEN_EXPIRE_MINUTES`, then `jwt.encode` evaluates
`settings.JWT_SECRET_KEY` and `settings.JWT_ALGORITHM`, in that order;
each undeclared attribute raises `AttributeError` (uncaught). The value
fields of the success branch are vacuous placeholders, because with the
repository settings no access ever succeeds. -/
def create_access_token_app (now : Nat) (data : Payload)
    (expires_delta : Option Nat) : Except Fault TokenString :=
  match (if expires_delta.isSome then .ok () else settingsGetattr "JWT_ACCESS_TOKEN_EXPIRE_MINUTES") with
  | .error f => .error f
  | .ok _ =>
      match settingsGetattr "JWT_SECRET_KEY", settingsGetattr "JWT_ALGORITHM" with
      | .error f, _ => .error f
      | .ok _, .error f => .error f
      | .ok _, .ok _ =>
          .ok (TokenString.signed { data with exp := some (now + expires_delta.getD 0) } "" "")

-- ═══════════════════════════ security.py resolver ═══════════════════════════

/-- The reusable 401 raised by `get_current_user`. -/
def credentials_exception : HTTPException :=
  ⟨401, "Could not validate credentials.", [("WWW-Authenticate", "Bearer")]⟩

/-- Surrounding-whitespace removal on a character list. -/
def pyTrimChars (l : List Char) : List Char :=
  ((l.dropWhile Char.isWhitespace).reverse.dropWhile Char.isWhitespace).reverse

/-- A non-empty all-digit run parsed as a natural number. -/
def parseDigits (l : List Char) : Option Nat :=
  if l ≠ [] ∧ l.all Char.isDigit then
    some (l.foldl (fun a c => a * 10 + (c.toNat - 48)) 0)
  else none

/-- Python `int(s)` on a string: optional surrounding whitespace, one
optional sign, then a non-empty run of decimal digits; anything else
raises `ValueError`. -/
def pyInt (s : String) : Option Int :=
  match pyTrimChars s.data with
  | [] => none
  | c :: rest =>
      if c = '-' then (parseDigits rest).map (fun n => -(n : Int))
      else if c = '+' then (parseDigits rest).map (fun n => (n : Int))
      else (parseDigits (c :: rest)).map (fun n => (n : Int))

/-- `get_current_user` from app/core/security.py, with the settings it
reads supplied as `cfg`: decode the JWT (any `JWTError`, and a missing
`sub`, become the 401 `credentials_exception`), then — outside the
`try` block — run `int(user_id)` and the store lookup; a non-integer
`sub` therefore raises an uncaught `ValueError`, and a missing user is
again the 401. -/
def get_current_user (cfg : JwtConfig) (now : Nat) (db : DB)
    (token : TokenString) : Except Fault User :=
  match jwtDecode cfg.jwt_secret_key [cfg.jwt_algorithm] now token with
  | .error _ => .error (.http credentials_exception)
  | .ok payload =>
      match payload.sub with
      | none => .error (.http credentials_exception)
      | some user_id =>
          match pyInt user_id with
          | none => .error (.valueError user_id)
          | some uid =>
              match findUserById db uid with
              | none => .error (.http credentials_exception)
              | some user => .ok user

-- ═══════════════════════════ RoleChecker ═══════════════════════════

/-- A single-quote character, used when rendering Python repr strings. -/
def pyQuote : String :=
  String.singleton (Char.ofNat 39)

/-- Python `", ".join`-style concatenation. -/
def joinComma : List String → String
  | [] => ""
  | [x] => x
  | x :: y :: rest => x ++ ", " ++ joinComma (y :: rest)

/-- Python `str` of a list of strings, as interpolated by an f-string:
`['a', 'b']`. -/
def pyStrListRepr (xs : List String) : String :=
  "[" ++ joinComma (xs.map (fun s => pyQuote ++ s ++ pyQuote)) ++ "]"

/-- The 403 detail built by `RoleChecker.__call__`:
`Role <role> is not permitted. Required: [...]` with the role value in
single quotes, exactly the f-string in app/core/security.py. -/
def roleDetail (role : UserRole) (allowed_roles : List UserRole) : String :=
  "Role " ++ pyQuote ++ role.value ++ pyQuote ++ " is not permitted. Required: "
    ++ pyStrListRepr (allowed_roles.map UserRole.value) ++ "."

/-- `RoleChecker.__call__` from app/core/security.py, applied after
authentication succeeded: reject with 403 when the user's role is not in
the allowed list, else return the user unchanged. -/
def RoleChecker_call (allowed_roles : List UserRole) (current_user : User) :
    Except Fault User :=
  if current_user.role ∉ allowed_roles then
    .error (.http ⟨403, roleDetail current_user.role allowed_roles, []⟩)
  else .ok current_user

-- ═══════════════════════════ auth.py routes ═══════════════════════════

/-- `UserCreate` input schema from app/schemas/user.py; a missing `role`
field defaults to `customer`. (The pydantic validation layer — email
syntax, password length 8..128 — is outside this core.) -/
structure UserCreate where
  email : String
  password : String
  full_name : String
  city : Option String := none
  phone_number : Option String := none
  role : UserRole := UserRole.customer
deriving DecidableEq, Repr

/-- The 409 raised by `register` on a duplicate email. -/
def conflictExc : HTTPException :=
  ⟨409, "A user with this email already exists.", []⟩

/-- The row `register` builds and persists for a fresh email: the next
auto-increment id, the submitted fields, and `hash_password` of the
submitted password. -/
def register_db_user (seed now : Nat) (db : DB) (user_in : UserCreate) : User :=
  ⟨db.nextUserId, user_in.email, hash_password seed user_in.password,
    user_in.full_name, user_in.city, user_in.phone_number, user_in.role, now⟩

/-- `register` from app/api/routes/auth.py: duplicate email → 409 and no
insert; fresh email → hash the password, insert, return the new row. -/
def register (seed now : Nat) (db : DB) (user_in : UserCreate) :
    Except Fault User × DB :=
  match findUserByEmail db user_in.email with
  | some _ => (.error (.http conflictExc), db)
  | none =>
      let db_user := register_db_user seed now db user_in
      (.ok db_user,
        { db with users := db.users ++ [db_user], nextUserId := db.nextUserId + 1 })

/-- The generic 401 raised by `login` for both failure causes. -/
def incorrectCreds : HTTPException :=
  ⟨401, "Incorrect email or password.", [("WWW-Authenticate", "Bearer")]⟩

/-- The `Token` response schema from app/schemas/user.py. -/
structure TokenOut where
  access_token : TokenString
  token_type : String
deriving DecidableEq, Repr

/-- `login` from app/api/routes/auth.py, with the JWT settings supplied as
`cfg`: look up by email; `if not user or not verify_password(...)` raise
the one generic 401; otherwise issue `create_access_token` on
`{"sub": str(user.id)}`. The session is never written. -/
def login (cfg : JwtConfig) (now : Nat) (db : DB) (username password : String) :
    Except Fault TokenOut × DB :=
  match findUserByEmail db username with
  | none => (.error (.http incorrectCreds), db)
  | some user =>
      match verify_password password user.password_hash with
      | .raises kind => (.error (.passlibError kind), db)
      | .returns false => (.error (.http incorrectCreds), db)
      | .returns true =>
          (.ok ⟨create_access_token cfg now ⟨some (toString user.id), none⟩ none, "bearer"⟩, db)

-- ═══════════════════════════ hotels.py routes ═══════════════════════════

/-- `RoomCreate` input schema from app/schemas/hotel.py. -/
structure RoomCreate where
  room_type : String
  price_per_night : Int
  capacity : Int := 2
  is_available : Bool := true
deriving DecidableEq, Repr

/-- The 401 FastAPI's `OAuth2PasswordBearer` raises when the request has
no usable bearer credentials. -/
def notAuthenticated : HTTPException :=
  ⟨401, "Not authenticated", [("WWW-Authenticate", "Bearer")]⟩

/-- The dependency chain guarding the protected hotel routes:
`oauth2_scheme` (missing header → 401) then `get_current_user` then
`RoleChecker([UserRole.HOTEL_OWNER, UserRole.ADMIN])`. -/
def require_hotel_role_dep (cfg : JwtConfig) (now : Nat) (db : DB)
    (token : Option TokenString) : Except Fault User :=
  match token with
  | none => .error (.http notAuthenticated)
  | some t =>
      match get_current_user cfg now db t with
      | .error f => .error f
      | .ok u => RoleChecker_call [UserRole.hotel_owner, UserRole.admin] u

/-- The 403 raised by the ownership check inside `add_room`. -/
def roomForbidden : HTTPException :=
  ⟨403, "You can only add rooms to your own hotel.", []⟩

/-- The 404 raised by `add_room` when the hotel id is absent. -/
def hotelNotFound (hotel_id : Int) : HTTPException :=
  ⟨404, "Hotel with id " ++ toString hotel_id ++ " not found.", []⟩

/-- The ownership check fragment of `add_room` (hotels.py lines 196-203),
run on an already-fetched hotel: non-admins that do not own the hotel are
rejected with 403, everyone else passes. -/
def addRoomOwnershipCheck (current_user : User) (hotel : Hotel) :
    Except Fault Unit :=
  if current_user.role ≠ UserRole.admin ∧ hotel.owner_id ≠ current_user.id then
    .error (.http roomForbidden)
  else .ok ()

/-- `POST /api/hotels/{hotel_id}/rooms` end to end, with the JWT settings
supplied as `cfg`: FastAPI resolves `require_hotel_role` (authentication
+ role gate) before the handler body runs; the body then fetches the
hotel (404 when absent), applies the ownership check, and persists the
new room. -/
def add_room (cfg : JwtConfig) (now : Nat) (db : DB)
    (token : Option TokenString) (hotel_id : Int) (room_in : RoomCreate) :
    Except Fault Room × DB :=
  match require_hotel_role_dep cfg now db token with
  | .error f => (.error f, db)
  | .ok current_user =>
      match getHotel db hotel_id with
      | none => (.error (.http (hotelNotFound hotel_id)), db)
      | some hotel =>
          match addRoomOwnershipCheck current_user hotel with
          | .error f => (.error f, db)
          | .ok _ =>
              let db_room : Room := ⟨db.nextRoomId, hotel_id, room_in.room_type,
                room_in.price_per_night, room_in.capacity, room_in.is_available⟩
              (.ok db_room,
                { db with rooms := db.rooms ++ [db_room], nextRoomId := db.nextRoomId + 1 })

-- ═══════════════════════════ shared predicates ═══════════════════════════

/-- `piece` occurs verbatim inside `s` (an explicit decomposition). -/
def containsPiece (s piece : String) : Prop :=
  ∃ a b, s = a ++ piece ++ b

-- ═══════════════════════════ concrete fixtures ═══════════════════════════

/-- A concrete JWT configuration for witnesses. -/
def cfgEx : JwtConfig :=
  ⟨"test-secret-key", "HS256", 30⟩

/-- A hotel-owner user (id 1). -/
def uOwner : User :=
  ⟨1, "owner@example.com", hash_password 3 "ownerpass123", "Owner One",
    none, none, UserRole.hotel_owner, 0⟩

/-- A customer user (id 2). -/
def uCustomer : User :=
  ⟨2, "customer@example.com", hash_password 4 "custpass1234", "Customer Two",
    none, none, UserRole.customer, 0⟩

/-- An admin user (id 3) whose own id owns nothing. -/
def uAdmin : User :=
  ⟨3, "admin@example.com", hash_password 5 "adminpass123", "Admin Three",
    none, none, UserRole.admin, 0⟩

/-- A hotel owned by `uOwner`. -/
def hotelEx : Hotel :=
  ⟨10, 1, "Serena Hotel Gilgit", "Jutial, Gilgit 15100", "Gilgit", none, none, 0⟩

/-- A store with the three users and the one hotel. -/
def dbEx : DB :=
  ⟨[uOwner, uCustomer, uAdmin], [hotelEx], [], 4, 1⟩

/-- An empty store. -/
def dbEmpty : DB :=
  ⟨[], [], [], 1, 1⟩

/-- A token for `uOwner` signed with the configured key, far from expiry. -/
def tokOwner : TokenString :=
  TokenString.signed ⟨some "1", some 1000⟩ "test-secret-key" "HS256"

/-- A token for `uCustomer` signed with the configured key. -/
def tokCustomer : TokenString :=
  TokenString.signed ⟨some "2", some 1000⟩ "test-secret-key" "HS256"

/-- A room-creation input. -/
def roomInEx : RoomCreate :=
  ⟨"Deluxe", 5000, 2, true⟩

/-- A registration input carrying role admin. -/
def adminCreateEx : UserCreate :=
  ⟨"newadmin@example.com", "password123", "New Admin", none, none, UserRole.admin⟩

/-- A syntactically well-formed bcrypt digest literal (22-char salt,
31-char checksum). -/
def digestEx : String :=
  "$2b$12$abcdefghijklmnopqrstuvABCDEFGHIJKLMNOPQRSTUVWXYZ01234"

-- ═══════════════════════════ helper lemmas ═══════════════════════════

/-- A modelled bcrypt digest is always exactly 60 characters. -/
theorem hash_password_length (seed : Nat) (plain : String) :
    (hash_password seed plain).length = 60 := rfl

/-- Every member of a list occurs verbatim in its comma join. -/
theorem joinComma_decomp (xs : List String) (s : String) (hmem : s ∈ xs) :
    ∃ a b, joinComma xs = a ++ s ++ b := by
  induction xs with
  | nil => cases hmem
  | cons x rest ih =>
      rcases List.mem_cons.mp hmem with rfl | hmem2
      · cases rest with
        | nil => exact ⟨"", "", by simp [joinComma, String.empty_append, String.append_empty]⟩
        | cons y ys =>
            exact ⟨"", ", " ++ joinComma (y :: ys),
              by simp [joinComma, String.empty_append, String.append_assoc]⟩
      · cases rest with
        | nil => cases hmem2
        | cons y ys =>
            obtain ⟨a, b, hab⟩ := ih hmem2
            exact ⟨x ++ ", " ++ a, b, by simp [joinComma, hab, String.append_assoc]⟩

/-- Every member of a list occurs verbatim in its Python repr. -/
theorem pyStrListRepr_decomp (xs : List String) (s : String) (hmem : s ∈ xs) :
    containsPiece (pyStrListRepr xs) s := by
  obtain ⟨a, b, hab⟩ :=
    joinComma_decomp _ _ (List.mem_map_of_mem (fun t => pyQuote ++ t ++ pyQuote) hmem)
  simp only [String.append_assoc] at hab
  exact ⟨"[" ++ a ++ pyQuote, pyQuote ++ b ++ "]",
    by simp [pyStrListRepr, hab, String.append_assoc]⟩

/-- The value of each allowed role occurs verbatim in the RoleChecker
403 detail. -/
theorem roleDetail_names_allowed (role : UserRole) (allowed : List UserRole)
    (r : UserRole) (hr : r ∈ allowed) :
    containsPiece (roleDetail role allowed) r.value := by
  obtain ⟨a, b, hab⟩ :=
    pyStrListRepr_decomp _ _ (List.mem_map_of_mem UserRole.value hr)
  exact ⟨"Role " ++ pyQuote ++ role.value ++ pyQuote ++ " is not permitted. Required: " ++ a,
    b ++ ".", by simp [roleDetail, hab, String.append_assoc]⟩

-- ═══════════════════════════ claim theorems ═══════════════════════════

/-- C1: the ownership gate of `add_room` passes exactly when the
authenticated identity is an admin or its id equals the hotel's
`owner_id`; a non-admin fails with the 403 Forbidden exception iff its id
differs from the owner id; an admin always passes whatever its own id. -/
theorem ownership_gate_spec (u : User) (h : Hotel) :
    (addRoomOwnershipCheck u h = .ok () ↔ (u.role = UserRole.admin ∨ u.id = h.owner_id))
    ∧ (u.role ≠ UserRole.admin →
        (addRoomOwnershipCheck u h = .error (.http roomForbidden) ↔ u.id ≠ h.owner_id))
    ∧ (u.role = UserRole.admin → addRoomOwnershipCheck u h = .ok ()) := by
  unfold addRoomOwnershipCheck
  by_cases hr : u.role = UserRole.admin <;> by_cases hid : u.id = h.owner_id <;>
    simp [hr, hid, eq_comm]

/-- C1 witness: an admin whose id owns nothing passes the ownership gate. -/
theorem ownership_gate_spec_witness :
    addRoomOwnershipCheck uAdmin hotelEx = .ok () :=
  (ownership_gate_spec uAdmin hotelEx).2.2 rfl

/-- C5: the role gate returns the identity unchanged when its role is in
the allowed list, and otherwise fails with a 403 Forbidden whose detail
string names the identity's actual role and every role of the allowed
set. -/
theorem role_gate_spec (u : User) (allowed : List UserRole) :
    (u.role ∈ allowed → RoleChecker_call allowed u = .ok u)
    ∧ (u.role ∉ allowed →
        RoleChecker_call allowed u = .error (.http ⟨403, roleDetail u.role allowed, []⟩)
        ∧ containsPiece (roleDetail u.role allowed) u.role.value
        ∧ ∀ r ∈ allowed, containsPiece (roleDetail u.role allowed) r.value) := by
  constructor
  · intro hmem
    simp [RoleChecker_call, hmem]
  · intro hmem
    refine ⟨by simp [RoleChecker_call, hmem], ?_, ?_⟩
    · exact ⟨"Role " ++ pyQuote,
        pyQuote ++ " is not permitted. Required: "
          ++ pyStrListRepr (allowed.map UserRole.value) ++ ".",
        by simp [roleDetail, String.append_assoc]⟩
    · intro r hr
      exact roleDetail_names_allowed u.role allowed r hr

/-- C5 witness: a customer is rejected by the hotel-route role gate with
the 403 naming its role and the allowed set. -/
theorem role_gate_spec_witness :
    RoleChecker_call [UserRole.hotel_owner, UserRole.admin] uCustomer
      = .error (.http ⟨403,
          roleDetail UserRole.customer [UserRole.hotel_owner, UserRole.admin], []⟩) :=
  ((role_gate_spec uCustomer [UserRole.hotel_owner, UserRole.admin]).2 (by decide)).1

/-- C2: exhibits the code defect — a token signed with the configured key
whose `sub` claim is not a decimal integer makes `get_current_user` raise
an uncaught `ValueError` from `int(user_id)` (run outside the `try`
block), instead of the 401 `credentials_exception` the claim and the
function's own docstring ("Raises 401 if anything fails") promise. -/
theorem get_current_user_nonnumeric_sub_valueError :
    get_current_user cfgEx 0 dbEx
        (TokenString.signed ⟨some "abc", some 100⟩ "test-secret-key" "HS256")
      = .error (.valueError "abc") := by
  rfl

/-- C6: a token issued by `create_access_token` on a payload with
`sub = id` and decoded before its expiry instant yields the payload back
with the very same `sub`, the issue-then-verify round trip. -/
theorem issue_then_verify_roundtrip (cfg : JwtConfig) (now now2 : Nat) (id : String)
    (e0 expires_delta : Option Nat)
    (hfresh : now2 ≤ now + tokenLifetime cfg expires_delta) :
    jwtDecode cfg.jwt_secret_key [cfg.jwt_algorithm] now2
        (create_access_token cfg now ⟨some id, e0⟩ expires_delta)
      = .ok ⟨some id, some (now + tokenLifetime cfg expires_delta)⟩ := by
  simp [create_access_token, jwtDecode]
  omega

/-- C6 witness: issue at time 0 with the default TTL, decode at time 5. -/
theorem issue_then_verify_roundtrip_witness :
    jwtDecode cfgEx.jwt_secret_key [cfgEx.jwt_algorithm] 5
        (create_access_token cfgEx 0 ⟨some "42", none⟩ none)
      = .ok ⟨some "42", some (0 + tokenLifetime cfgEx none)⟩ :=
  issue_then_verify_roundtrip cfgEx 0 5 "42" none none (by decide)

/-- C7: exhibits the code defect — `create_access_token` called without
an explicit `expires_delta` immediately raises `AttributeError`, because
the `Settings` class of app/config.py declares no
`JWT_ACCESS_TOKEN_EXPIRE_MINUTES` field (and `extra="ignore"` discards
any such environment key), so no configured default TTL exists at all. -/
theorem create_access_token_default_ttl_attribute_missing (now : Nat) (data : Payload) :
    create_access_token_app now data none
      = .error (.attributeError "JWT_ACCESS_TOKEN_EXPIRE_MINUTES") := by
  rfl

/-- C4 counterexample: an authenticated customer asking to add a room to
the nonexistent hotel 99 is answered with the role gate's 403, not with
404 — so a missing resource id is NOT answered with NotFound regardless
of the caller's role. -/
theorem add_room_missing_hotel_customer_forbidden :
    add_room cfgEx 0 dbEx (some tokCustomer) 99 roomInEx
      = (.error (.http ⟨403,
          roleDetail UserRole.customer [UserRole.hotel_owner, UserRole.admin], []⟩), dbEx)
    ∧ getHotel dbEx 99 = none := by
  constructor <;> rfl

/-- C4 (amended): for every caller that passes authentication and the
hotel-route role gate, a request naming an absent hotel id is answered
with the 404 NotFound built from the id alone — the existence check runs
before the ownership check and its outcome does not depend on which such
caller asks. Callers rejected earlier (401 unauthenticated, 403 role) do
not reach the existence check. -/
theorem add_room_missing_hotel_notfound (cfg : JwtConfig) (now : Nat) (db : DB)
    (token : Option TokenString) (u : User) (hotel_id : Int) (room_in : RoomCreate)
    (hauth : require_hotel_role_dep cfg now db token = .ok u)
    (hmiss : getHotel db hotel_id = none) :
    add_room cfg now db token hotel_id room_in
      = (.error (.http (hotelNotFound hotel_id)), db) := by
  simp [add_room, hauth, hmiss]

/-- C4 witness: the hotel owner itself gets the 404 for hotel 99. -/
theorem add_room_missing_hotel_notfound_witness :
    add_room cfgEx 0 dbEx (some tokOwner) 99 roomInEx
      = (.error (.http (hotelNotFound 99)), dbEx) :=
  add_room_missing_hotel_notfound cfgEx 0 dbEx (some tokOwner) uOwner 99 roomInEx rfl rfl

/-- C3 counterexample: `verify_password` against a digest passlib cannot
identify does not return a boolean — the `UnknownHashError` escapes,
refuting "returns false on a malformed digest and never raises". -/
theorem verify_password_unidentifiable_digest_raises :
    verify_password "password123" "not-a-bcrypt-digest" = .raises "UnknownHashError" := by
  rfl

/-- C3 (amended): `verify_password` returns a boolean exactly on digests
that parse as well-formed bcrypt hashes; an unidentifiable digest raises
`UnknownHashError` and an identified-but-malformed bcrypt digest raises
`MalformedHashError`, both escaping uncaught — it never returns false for
a corrupt or foreign digest. -/
theorem verify_password_outcomes (plain hashed : String) :
    (bcryptIdentify hashed = false →
        verify_password plain hashed = .raises "UnknownHashError")
    ∧ (bcryptIdentify hashed = true → isBcryptWellFormed hashed = false →
        verify_password plain hashed = .raises "MalformedHashError")
    ∧ (bcryptIdentify hashed = true → isBcryptWellFormed hashed = true →
        verify_password plain hashed = .returns (bcryptVerifyWF plain hashed)) := by
  refine ⟨fun h1 => ?_, fun h1 h2 => ?_, fun h1 h2 => ?_⟩
  · simp [verify_password, cryptContextVerify, h1]
  · simp [verify_password, cryptContextVerify, h1, h2]
  · simp [verify_password, cryptContextVerify, h1, h2]

/-- C3 witness: a well-formed bcrypt digest yields an ordinary boolean. -/
theorem verify_password_outcomes_witness :
    verify_password "pw" digestEx = .returns (bcryptVerifyWF "pw" digestEx) :=
  (verify_password_outcomes "pw" digestEx).2.2 (by rfl) (by rfl)

/-- C8: both login failure causes — unknown email, or a stored digest the
submitted password does not verify against — produce the very same
generic 401 with the same detail and headers, no token, and the store
returned unchanged. -/
theorem login_failure_indistinguishable (cfg : JwtConfig) (now : Nat) (db : DB)
    (username password : String)
    (hfail : findUserByEmail db username = none
      ∨ ∃ u, findUserByEmail db username = some u
          ∧ verify_password password u.password_hash = .returns false) :
    login cfg now db username password = (.error (.http incorrectCreds), db) := by
  rcases hfail with hnone | ⟨u, hu, hv⟩
  · simp [login, hnone]
  · simp [login, hu, hv]

/-- C8 witness: login for an email absent from the store. -/
theorem login_failure_indistinguishable_witness :
    login cfgEx 0 dbEmpty "ghost@example.com" "whatever"
      = (.error (.http incorrectCreds), dbEmpty) :=
  login_failure_indistinguishable cfgEx 0 dbEmpty "ghost@example.com" "whatever"
    (Or.inl rfl)

/-- C9: registration with an email already stored fails with the 409
Conflict and inserts nothing; with a fresh email it inserts exactly one
new row whose password field is the bcrypt digest of the submitted
password (and differs from the plaintext whenever the submitted password
is not itself a 60-character string, the one length a digest can have). -/
theorem register_conflict_and_digest (seed now : Nat) (db : DB) (user_in : UserCreate) :
    ((findUserByEmail db user_in.email).isSome →
        register seed now db user_in = (.error (.http conflictExc), db))
    ∧ (findUserByEmail db user_in.email = none →
        register seed now db user_in
          = (.ok (register_db_user seed now db user_in),
              { db with users := db.users ++ [register_db_user seed now db user_in],
                        nextUserId := db.nextUserId + 1 })
        ∧ (register_db_user seed now db user_in).password_hash
            = hash_password seed user_in.password
        ∧ (user_in.password.length ≠ 60 →
            (register_db_user seed now db user_in).password_hash ≠ user_in.password)) := by
  constructor
  · intro hdup
    obtain ⟨u, hu⟩ := Option.isSome_iff_exists.mp hdup
    simp [register, hu]
  · intro hf
    refine ⟨by simp [register, hf], rfl, ?_⟩
    intro hlen heq
    apply hlen
    calc user_in.password.length
        = (register_db_user seed now db user_in).password_hash.length := by rw [heq]
      _ = 60 := hash_password_length seed user_in.password

/-- C9 witness: registering a fresh email stores the digest, not the
submitted password. -/
theorem register_conflict_and_digest_witness :
    register 7 0 dbEmpty adminCreateEx
      = (.ok (register_db_user 7 0 dbEmpty adminCreateEx),
          { dbEmpty with users := dbEmpty.users ++ [register_db_user 7 0 dbEmpty adminCreateEx],
                         nextUserId := dbEmpty.nextUserId + 1 })
    ∧ (register_db_user 7 0 dbEmpty adminCreateEx).password_hash
        = hash_password 7 adminCreateEx.password
    ∧ (register_db_user 7 0 dbEmpty adminCreateEx).password_hash ≠ adminCreateEx.password := by
  obtain ⟨h1, h2, h3⟩ := (register_conflict_and_digest 7 0 dbEmpty adminCreateEx).2 rfl
  exact ⟨h1, h2, h3 (by decide)⟩

/-- C10: registration accepts `role = admin` for any fresh email — the
created row carries role admin, which then passes every role gate whose
allowed list contains admin and the admin bypass of the ownership gate —
and a registration input with the role field omitted defaults to
customer. -/
theorem register_accepts_admin_role (seed now : Nat) (db : DB) (user_in : UserCreate)
    (hrole : user_in.role = UserRole.admin)
    (hfresh : findUserByEmail db user_in.email = none) :
    (register seed now db user_in).1 = .ok (register_db_user seed now db user_in)
    ∧ (register_db_user seed now db user_in).role = UserRole.admin
    ∧ (∀ allowed : List UserRole, UserRole.admin ∈ allowed →
        RoleChecker_call allowed (register_db_user seed now db user_in)
          = .ok (register_db_user seed now db user_in))
    ∧ (∀ h : Hotel, addRoomOwnershipCheck (register_db_user seed now db user_in) h = .ok ())
    ∧ (∀ e p n : String,
        ({ email := e, password := p, full_name := n } : UserCreate).role
          = UserRole.customer) := by
  refine ⟨by simp [register, hfresh], hrole, ?_, ?_, fun e p n => rfl⟩
  · intro allowed hmem
    have hr : (register_db_user seed now db user_in).role ∈ allowed := by
      rw [show (register_db_user seed now db user_in).role = user_in.role from rfl, hrole]
      exact hmem
    simp [RoleChecker_call, hr]
  · intro h
    simp [addRoomOwnershipCheck,
      show (register_db_user seed now db user_in).role = UserRole.admin from hrole]

/-- C10 witness: a concrete admin self-registration is accepted and the
stored row has role admin. -/
theorem register_accepts_admin_role_witness :
    (register 7 0 dbEmpty adminCreateEx).1 = .ok (register_db_user 7 0 dbEmpty adminCreateEx)
    ∧ (register_db_user 7 0 dbEmpty adminCreateEx).role = UserRole.admin := by
  obtain ⟨h1, h2, _, _, _⟩ := register_accepts_admin_role 7 0 dbEmpty adminCreateEx rfl rfl
  exact ⟨h1, h2⟩
